import Mathlib

/-!
Verification of the wiki-bot WhatsApp daily-facts service.

Shallow embedding conventions:
- Python strings are modelled as lists of characters (`PyStr`); `pstr` turns a
  Lean string literal into that model.
- Timestamps are integers counting seconds since the epoch; `datetime.now` is an
  explicit `now` argument.
- The database is explicit state (`DB` for the users table, `FactDB` for the
  daily_facts table) threaded through each operation.
- External effects (the Twilio REST client, the Wikipedia fetcher, the OpenRouter
  summarizer) are supplied as function-valued environments; a call that can raise
  is an `Except PyErr` value.
- The source is mid-refactor: `settings.py` dropped the `Language` enum while
  `webhook.py`, `whatsapp_service.py`, `fact.py` and `user_repository.py` still
  reference it, and `models/user.py` dropped the `language` column that the
  handlers still read. The embedding keeps the two-member enum and the `language`
  field exactly as the handler code uses them, since every claim is about the
  handler logic.
-/

namespace WikiBot

/-- Python strings are modelled as lists of characters. -/
abbrev PyStr := List Char

/-- A Lean string literal seen as a Python string. -/
def pstr (s : String) : PyStr := s.data

/-- The two bot languages (`settings.Language`, values "en" / "he"). -/
inductive Language
  | english
  | hebrew
deriving DecidableEq, Repr

/-- `models.message.MessageType`. -/
inductive MessageType
  | welcome
  | dailyFact
  | languageChanged
  | subscriptionChanged
  | help
  | errorKind
deriving DecidableEq, Repr

/-- Python exceptions that the embedded code can observe. -/
inductive PyErr
  | twilioErr (msg : PyStr)
  | uniquenessViolation (phone : PyStr)
  | otherErr (msg : PyStr)
deriving DecidableEq, Repr

/-- `models.user.User` (the users table row). `lastMessageAt` is the
`last_message_at` column: the last inbound-message timestamp used for session
tracking, `none` when no inbound was ever recorded. -/
structure User where
  id : Nat
  phone : PyStr
  language : Language
  subscribed : Bool
  lastMessageAt : Option Int
  createdAt : Int
  updatedAt : Option Int
deriving DecidableEq, Repr

/-- 24 hours in seconds, the session-window width used by
`User.is_in_session_window`. -/
def secondsPerDay : Int := 24 * 60 * 60

/-- `User.is_in_session_window` (models/user.py lines 40-55): `false` when
`last_message_at` is null, otherwise `now - last_message_at < 24h` with a strict
comparison in seconds. -/
def User.isInSessionWindow (u : User) (now : Int) : Bool :=
  match u.lastMessageAt with
  | none => false
  | some t => decide (now - t < secondsPerDay)

/-- The Twilio part of `config.settings` that the send path reads. -/
structure TwilioSettings where
  whatsappFrom : PyStr
  welcomeTemplateSid : PyStr
  menuTemplateSid : PyStr
deriving DecidableEq, Repr

/-- `TwilioSettings.is_sandbox`: the configured sender is the shared sandbox
number. -/
def TwilioSettings.isSandbox (s : TwilioSettings) : Bool :=
  s.whatsappFrom == pstr "whatsapp:+14155238886"

/-- `TwilioSettings.has_templates`: both the welcome and the menu template SIDs
are configured (non-empty). -/
def TwilioSettings.hasTemplates (s : TwilioSettings) : Bool :=
  !s.welcomeTemplateSid.isEmpty && !s.menuTemplateSid.isEmpty

/-- The delivery mode of one outbound Twilio API call. The source only ever
issues free-form body sends; the `structuredTemplate` mode exists in the model so
that statements about which mode was used are expressible. -/
inductive DeliveryMode
  | freeform
  | structuredTemplate
deriving DecidableEq, Repr

/-- One call to `client.messages.create`. -/
structure SendAttempt where
  toNumber : PyStr
  content : PyStr
  mode : DeliveryMode
deriving DecidableEq, Repr

/-- The observable outcome of `WhatsAppService.send_message`: its return value,
the Twilio API calls it made, and the `should_use_template` flag it computed and
logged. -/
structure SendResult where
  returned : Option PyStr
  attempts : List SendAttempt
  shouldUseTemplate : Bool
deriving DecidableEq, Repr

/-- The `whatsapp:` scheme marker added in front of bare phone numbers. -/
def waMarker : PyStr := pstr "whatsapp:"

/-- Line 53 of whatsapp_service.py: prepend `whatsapp:` unless already present. -/
def formatToNumber (phone : PyStr) : PyStr :=
  if waMarker.isPrefixOf phone then phone else waMarker ++ phone

/-- The `should_use_template` computation of send_message lines 56-61: a user was
passed, it is outside the session window, and the channel is not the sandbox. -/
def shouldUseTemplateFlag (cfg : TwilioSettings) (user : Option User) (now : Int) : Bool :=
  match user with
  | some u => !u.isInSessionWindow now && !cfg.isSandbox
  | none => false

/-- The try-block of `WhatsAppService.send_message` before exception handling:
the raw outcome of the single `client.messages.create` call (which can raise),
the attempts issued, and the logged flag. The body is always sent as one
free-form message regardless of the flag. -/
def sendMessageRaw (cfg : TwilioSettings) (twilio : SendAttempt → Except PyErr PyStr)
    (phone content : PyStr) (user : Option User) (now : Int) :
    Except PyErr PyStr × List SendAttempt × Bool :=
  let attempt : SendAttempt := ⟨formatToNumber phone, content, .freeform⟩
  (twilio attempt, [attempt], shouldUseTemplateFlag cfg user now)

/-- `WhatsAppService.send_message` (whatsapp_service.py lines 32-97): the
try-block with its two except-handlers, both of which swallow the exception and
return `None`. -/
def sendMessage (cfg : TwilioSettings) (twilio : SendAttempt → Except PyErr PyStr)
    (phone content : PyStr) (_messageType : MessageType) (user : Option User) (now : Int) :
    SendResult :=
  match sendMessageRaw cfg twilio phone content user now with
  | (Except.ok sid, attempts, flag) => ⟨some sid, attempts, flag⟩
  | (Except.error _, attempts, flag) => ⟨none, attempts, flag⟩

/-- The daily-fact body formatting of `send_daily_fact` lines 111-115. -/
def dailyFactBody (language : Language) (factContent : PyStr) : PyStr :=
  if language = Language.hebrew then
    pstr "🧠 עובדה יומית מרתקת:\n\n" ++ factContent ++ pstr "\n\n📚 מקור: ויקיפדיה"
  else
    pstr "🧠 Daily Fun Fact:\n\n" ++ factContent ++ pstr "\n\n📚 Source: Wikipedia"

/-- `WhatsAppService.send_daily_fact` (lines 99-130): formats the fact by the
user language, sends it through `send_message` without the session-tracking user
argument, and returns whether a message id came back. Its own try-handler also
swallows any exception into `False`. -/
def sendDailyFact (cfg : TwilioSettings) (twilio : SendAttempt → Except PyErr PyStr)
    (user : User) (factContent : PyStr) (now : Int) : Bool × List SendAttempt :=
  let r := sendMessage cfg twilio user.phone (dailyFactBody user.language factContent)
    MessageType.dailyFact none now
  (r.returned.isSome, r.attempts)

/-! ## Python string primitives

`str.lower` is modelled by `Char.toLower` per character, which agrees with
Python on ASCII (Python also lowers non-ASCII cased letters; no claim depends on
those). `str.strip` is modelled with the ASCII whitespace set that Python
strips; `str.isdigit` is modelled as "all characters are decimal digits" (Python
also accepts some non-ASCII digit characters; every such input reaches the same
fallback branch of the menu dispatch, see `handleNumberResponse`). -/

/-- The character class stripped by `str.strip()` (ASCII part). -/
def pyIsSpace (c : Char) : Bool :=
  decide (c.toNat = 32 ∨ c.toNat = 9 ∨ c.toNat = 10 ∨ c.toNat = 13 ∨ c.toNat = 11 ∨ c.toNat = 12)

/-- `str.lower()`. -/
def pyLower (s : PyStr) : PyStr := s.map Char.toLower

/-- Strip, from both ends, the characters satisfying `p`. -/
def stripWith (p : α → Bool) (l : List α) : List α :=
  ((l.dropWhile p).reverse.dropWhile p).reverse

/-- `str.strip()`. -/
def pyStrip (s : PyStr) : PyStr := stripWith pyIsSpace s

/-- `str.isdigit()`: non-empty and every character a decimal digit. -/
def pyIsDigit (s : PyStr) : Bool := !s.isEmpty && s.all Char.isDigit

/-! ## The users table and its repository operations -/

/-- The users table: a list of rows whose `phone` column carries a unique
constraint (`models/user.py`, `unique=True`). -/
structure DB where
  users : List User
deriving DecidableEq, Repr

/-- `UserRepository.get_user_by_phone`: first row matching the phone, returned
as a detached value copy, `none` when absent. -/
def DB.lookup (db : DB) (phone : PyStr) : Option User :=
  db.users.find? (fun u => u.phone == phone)

/-- `UserRepository.create_user` plus the unique constraint on `phone`: inserting
a row for an address that already has one raises a uniqueness violation, which
`create_user` logs and re-raises. A fresh row has `subscribed = true` and null
`last_message_at` (the model defaults of `models/user.py`). -/
def DB.createUser (db : DB) (phone : PyStr) (language : Language) (now : Int) :
    Except PyErr (DB × User) :=
  if (db.lookup phone).isSome then
    Except.error (PyErr.uniquenessViolation phone)
  else
    let u : User := ⟨db.users.length + 1, phone, language, true, none, now, none⟩
    Except.ok (⟨db.users ++ [u]⟩, u)

/-- `UserRepository.update_user`: apply the provided field updates to the row
with this phone and stamp `updated_at = now`; rows for other phones unchanged. -/
def DB.updateUser (db : DB) (phone : PyStr) (apply : User → User) (now : Int) : DB :=
  ⟨db.users.map (fun u => if u.phone == phone then { apply u with updatedAt := some now } else u)⟩

/-! ## The webhook command engine -/

/-- The outbound replies that the webhook handlers can send (each names the
`whatsapp_service.send_*` helper it stands for, with the arguments the handler
passes). -/
inductive Reply
  | mainMenu (language : Language)
  | subscriptionMenu (language : Language) (currentStatus : Bool)
  | languageMenu (language : Language)
  | helpMessage (language : Language)
  | subscriptionChanged (language : Language) (subscribed : Bool)
  | languageChanged (language : Language)
deriving DecidableEq, Repr

/-- The observable outcome of processing one inbound event: the users table
afterwards and the replies sent, in order. -/
structure ProcessResult where
  db : DB
  replies : List Reply
deriving DecidableEq, Repr

/-- `handle_sub_menu_response` (webhook.py lines 181-231): "1" toggles the
subscription and confirms the new state, "2" switches the language to Hebrew,
anything else re-sends the main menu. `user` is the row the caller fetched. -/
def handleSubMenuResponse (db : DB) (phone number : PyStr) (user : User) (now : Int) :
    ProcessResult :=
  if number == pstr "1" then
    if user.subscribed then
      ⟨db.updateUser phone (fun u => { u with subscribed := false }) now,
        [Reply.subscriptionChanged user.language false]⟩
    else
      ⟨db.updateUser phone (fun u => { u with subscribed := true }) now,
        [Reply.subscriptionChanged user.language true]⟩
  else if number == pstr "2" then
    if user.language ≠ Language.hebrew then
      ⟨db.updateUser phone (fun u => { u with language := Language.hebrew }) now,
        [Reply.languageChanged Language.hebrew]⟩
    else
      ⟨db, [Reply.languageChanged Language.hebrew]⟩
  else
    ⟨db, [Reply.mainMenu user.language]⟩

/-- `handle_number_response` (webhook.py lines 121-178): re-fetch the user, then
dispatch on the literal digit string; "1" and "4" send help, "2" sends the
subscription menu showing the current status, "3" the language menu, "0" the
main menu, and any other number falls through to the sub-menu handler. -/
def handleNumberResponse (db : DB) (phone number : PyStr) (now : Int) : ProcessResult :=
  match db.lookup phone with
  | none => ⟨db, []⟩
  | some user =>
    if number == pstr "1" then ⟨db, [Reply.helpMessage user.language]⟩
    else if number == pstr "2" then ⟨db, [Reply.subscriptionMenu user.language user.subscribed]⟩
    else if number == pstr "3" then ⟨db, [Reply.languageMenu user.language]⟩
    else if number == pstr "4" then ⟨db, [Reply.helpMessage user.language]⟩
    else if number == pstr "0" then ⟨db, [Reply.mainMenu user.language]⟩
    else handleSubMenuResponse db phone number user now

/-- `process_whatsapp_message` (webhook.py lines 65-118) with the linearization
of a possible concurrent first-contact race made explicit: the lookup at line 82
read snapshot `dbAtLookup`; by the time the create at line 91 (or any later
repository call) runs, the table is `dbAtCreate` — a concurrent handler for the
same address may have committed a row in between. The handler lowercases and
strips the body, creates a missing user (default language English) and sends the
main menu, routes digit-only bodies to the number handler, and sends the main
menu for anything else. Any exception — in particular a uniqueness violation
from the create — is caught by the catch-all at line 111, which only logs: no
reply is sent and no re-fetch happens. -/
def processMessageRaced (dbAtLookup dbAtCreate : DB) (phone rawBody : PyStr) (now : Int) :
    ProcessResult :=
  let body := pyStrip (pyLower rawBody)
  match dbAtLookup.lookup phone with
  | none =>
    match dbAtCreate.createUser phone Language.english now with
    | Except.ok (db2, user) => ⟨db2, [Reply.mainMenu user.language]⟩
    | Except.error _ => ⟨dbAtCreate, []⟩
  | some user =>
    if !body.isEmpty && pyIsDigit (pyStrip body) then
      handleNumberResponse dbAtCreate phone (pyStrip body) now
    else
      ⟨dbAtCreate, [Reply.mainMenu user.language]⟩

/-- `process_whatsapp_message` without interference: both snapshots coincide. -/
def processMessage (db : DB) (phone rawBody : PyStr) (now : Int) : ProcessResult :=
  processMessageRaced db db phone rawBody now

/-! ## The fan-out broadcaster -/

/-- What `asyncio.gather(..., return_exceptions=True)` records for one
`send_daily_fact` task: the `bool` the coroutine returned, or the exception it
raised (captured as a value, not re-raised). -/
inductive SendOutcome
  | value (b : Bool)
  | raised (e : PyErr)
deriving DecidableEq, Repr

/-- The success test of broadcast_daily_facts line 387:
`isinstance(result, bool) and result`. -/
def SendOutcome.isTrueBool : SendOutcome → Bool
  | SendOutcome.value b => b
  | SendOutcome.raised _ => false

/-- The batch partition of `range(0, len(users), batch_size)` with slices
`users[i:i+batch_size]`: consecutive chunks of size `k` (the last one possibly
shorter). -/
def batchesOf (k : Nat) : List α → List (List α)
  | [] => []
  | a :: rest => (a :: rest.take (k - 1)) :: batchesOf k (rest.drop (k - 1))
termination_by l => l.length
decreasing_by
  simp only [List.length_drop, List.length_cons]
  omega

/-- The per-language loop of `broadcast_daily_facts` (whatsapp_service.py lines
365-395): send to the users batch by batch (batch size 10), gather each batch
with exceptions captured, and count the results that are the boolean `True`.
Returns the count of successful sends and the list of users to whom a send was
attempted, in order. -/
def broadcastForLanguage (send : User → SendOutcome) (users : List User) : Nat × List User :=
  (batchesOf 10 users).foldl
    (fun acc batch =>
      let batchResults := batch.map send
      (acc.1 + batchResults.countP SendOutcome.isTrueBool, acc.2 ++ batch))
    (0, [])

/-- Association-list lookup standing for a Python dict read (`facts_by_language
.get` / `in`). -/
def lookupAssoc (entries : List (Language × PyStr)) (lang : Language) : Option PyStr :=
  (entries.find? (fun e => decide (e.1 = lang))).map (fun e => e.2)

/-- `WhatsAppService.broadcast_daily_facts` (lines 346-402): iterate the
languages of `usersByLanguage` (dicts modelled as association lists iterated in
insertion order); a language with no fact contributes a zero count and no sends;
otherwise run the per-language batched loop. Returns the per-language success
counts together with the full list of attempted recipients. The function body
has no raise path: exceptions from individual sends are captured by the gather
and only counted or logged. -/
def broadcastDailyFacts (send : User → PyStr → SendOutcome)
    (usersByLanguage : List (Language × List User))
    (factsByLanguage : List (Language × PyStr)) :
    List (Language × Nat) × List User :=
  usersByLanguage.foldl
    (fun acc entry =>
      match lookupAssoc factsByLanguage entry.1 with
      | none => (acc.1 ++ [(entry.1, 0)], acc.2)
      | some fact =>
        let r := broadcastForLanguage (fun u => send u fact) entry.2
        (acc.1 ++ [(entry.1, r.1)], acc.2 ++ r.2))
    ([], [])

/-! ## Summary validation -/

/-- Split a character list at every occurrence of `sep` (`str.split(sep)`):
the list of the separated segments, with empty segments kept. -/
def splitOnChar (sep : Char) (s : PyStr) : List PyStr :=
  s.foldr
    (fun c acc =>
      if c == sep then [] :: acc
      else
        match acc with
        | [] => [[c]]
        | g :: gs => (c :: g) :: gs)
    [[]]

/-- The sentence count of `_validate_summary` line 156:
`len([s for s in summary.split(".") if s.strip()])` — split on the period
character only, count the segments that are non-empty after stripping. -/
def sentenceCountOnDot (s : PyStr) : Nat :=
  ((splitOnChar '.' s).filter (fun seg => !(pyStrip seg).isEmpty)).length

/-- Modelled from the spec: the sentence count notion the specification uses,
"sentences split on terminal punctuation" — split on periods, exclamation marks
and question marks. This definition exists only to state claims against the
spec wording; the source splits on periods alone. -/
def specSentenceCount (s : PyStr) : Nat :=
  (((splitOnChar '.' s).flatMap (splitOnChar '!')).flatMap (splitOnChar '?')
    |>.filter (fun seg => !(pyStrip seg).isEmpty)).length

/-- Count of characters in the Hebrew Unicode block, `_validate_summary` line
165: `sum(1 for char in summary if "֐" <= char <= "׿")`. -/
def hebrewCharCount (s : PyStr) : Nat :=
  s.countP (fun c => decide (0x590 ≤ c.toNat ∧ c.toNat ≤ 0x5FF))

/-- Substring containment, Python `pattern in text`. -/
def containsSub (pat : PyStr) : PyStr → Bool
  | [] => pat.isEmpty
  | c :: rest => pat.isPrefixOf (c :: rest) || containsSub pat rest

/-- The refusal-phrase denylist of `_validate_summary` lines 172-175. -/
def avoidPhrases : List PyStr :=
  [pstr "I cannot", pstr "I don\x27t have", pstr "I\x27m sorry", pstr "As an AI",
   pstr "אני לא יכול", pstr "אני לא מסוגל", pstr "אני מצטער", pstr "כבוט AI"]

/-- `AIService._validate_summary` (ai_service.py lines 139-187). The reject
conditions in source order: empty (or whitespace-only) summary; length outside
50..400 characters; period-split sentence count outside 1..5; for the Hebrew
target language (`language == "he"`) fewer than 30 percent Hebrew-block
characters (the source compares `hebrew_chars < len(summary) * 0.3` in floating
point; the model uses the exact rational comparison `10 * count < 3 * len`);
and a (lowercased) refusal phrase occurring in the lowercased summary. -/
def validateSummary (summary : PyStr) (language : PyStr) : Bool :=
  if summary.isEmpty || (pyStrip summary).isEmpty then false
  else if summary.length < 50 || 400 < summary.length then false
  else if sentenceCountOnDot summary < 1 || 5 < sentenceCountOnDot summary then false
  else if language == pstr "he" && 10 * hebrewCharCount summary < 3 * summary.length then false
  else if avoidPhrases.any (fun pat => containsSub (pyLower pat) (pyLower summary)) then false
  else true

/-! ## The daily production job -/

/-- A daily_facts table row (models/fact.py); `date` is a calendar-day index.
The table carries a unique index on (date, language). -/
structure DailyFact where
  date : Nat
  language : Language
  originalTitle : PyStr
  originalUrl : PyStr
  summary : PyStr
deriving DecidableEq, Repr

/-- The daily_facts table. -/
structure FactDB where
  facts : List DailyFact
deriving DecidableEq, Repr

/-- `FactRepository.get_daily_fact`: first row for the date and language, or
none. -/
def FactDB.getDailyFact (db : FactDB) (d : Nat) (lang : Language) : Option DailyFact :=
  db.facts.find? (fun f => decide (f.date = d) && decide (f.language = lang))

/-- `FactRepository.create_daily_fact`: insert a row. -/
def FactDB.createDailyFact (db : FactDB) (f : DailyFact) : FactDB :=
  ⟨db.facts ++ [f]⟩

/-- The fields of the `article_data` dict that the job persists. -/
structure Article where
  title : PyStr
  url : PyStr
deriving DecidableEq, Repr

/-- The generation trace of one run of the daily job: the daily_facts table
afterwards, the languages for which the Wikipedia content source was called,
the languages for which the AI summarizer was called, and the `facts_to_send`
mapping being built. -/
structure JobTrace where
  db : FactDB
  wikiCalls : List Language
  aiCalls : List Language
  factsToSend : List (Language × PyStr)
deriving DecidableEq, Repr

/-- `_generate_daily_fact_for_language` (scheduler_service.py lines 87-140):
call the content source (recorded in the trace); on success call the summarizer
(recorded); on success persist the new row and return the summary. A failure at
either step returns no content (the source returns the falsy empty string). -/
def generateDailyFactForLanguage (wiki : Language → Option Article)
    (ai : Language → Article → Option PyStr) (st : JobTrace) (lang : Language)
    (today : Nat) : JobTrace × Option PyStr :=
  let st1 : JobTrace := { st with wikiCalls := st.wikiCalls ++ [lang] }
  match wiki lang with
  | none => (st1, none)
  | some art =>
    let st2 : JobTrace := { st1 with aiCalls := st1.aiCalls ++ [lang] }
    match ai lang art with
    | none => (st2, none)
    | some summary =>
      ({ st2 with db := st2.db.createDailyFact ⟨today, lang, art.title, art.url, summary⟩ },
        some summary)

/-- The languages the job iterates (scheduler_service.py line 27). -/
def jobLanguages : List Language := [Language.english, Language.hebrew]

/-- One iteration of Step 2 of `generate_and_send_daily_facts` (lines 40-49):
reuse the existing fact recorded in Step 1, otherwise generate, persist and add
to `facts_to_send` on success. -/
def dailyJobStep (wiki : Language → Option Article) (ai : Language → Article → Option PyStr)
    (today : Nat) (existing : List (Language × PyStr)) (st : JobTrace) (lang : Language) :
    JobTrace :=
  match lookupAssoc existing lang with
  | some s => { st with factsToSend := st.factsToSend ++ [(lang, s)] }
  | none =>
    match generateDailyFactForLanguage wiki ai st lang today with
    | (st2, some s) => { st2 with factsToSend := st2.factsToSend ++ [(lang, s)] }
    | (st2, none) => st2

/-- Steps 1-2 of `generate_and_send_daily_facts` (scheduler_service.py lines
18-49): Step 1 reads the already-persisted facts for today from the initial
table state; Step 2 fills `facts_to_send`, generating and persisting only the
missing ones. Steps 3-5 then read the subscribed users and hand
`facts_to_send` to the broadcaster (`broadcastDailyFacts` above); they do not
touch the daily_facts table. -/
def generateAndSendDailyFacts (wiki : Language → Option Article)
    (ai : Language → Article → Option PyStr) (db : FactDB) (today : Nat) : JobTrace :=
  let existing : List (Language × PyStr) :=
    jobLanguages.filterMap (fun l => (db.getDailyFact today l).map (fun f => (l, f.summary)))
  jobLanguages.foldl (dailyJobStep wiki ai today existing) ⟨db, [], [], []⟩

/-! ## Concrete fixtures used by witnesses and counterexamples -/

/-- A recipient with a recorded inbound at time 0. -/
def exUserAtZero : User :=
  ⟨1, pstr "+15551234500", Language.english, true, some 0, 0, none⟩

/-- A recipient with no recorded inbound (`last_message_at` null). -/
def exUserNoInbound : User :=
  ⟨2, pstr "+15550000001", Language.english, true, none, 0, none⟩

/-- A production (non-sandbox) Twilio configuration with both template SIDs
configured. -/
def exCfgProd : TwilioSettings :=
  ⟨pstr "whatsapp:+15559990000", pstr "HXwelcome", pstr "HXmenu"⟩

/-- A Twilio environment whose create call always succeeds with sid SM123. -/
def twilioOk : SendAttempt → Except PyErr PyStr :=
  fun _ => Except.ok (pstr "SM123")

/-- An existing subscribed English-language recipient row. -/
def exUserC2 : User :=
  ⟨7, pstr "+15551234567", Language.english, true, some 500, 0, none⟩

/-- A users table holding only `exUserC2`. -/
def dbC2 : DB := ⟨[exUserC2]⟩

/-- An empty users table. -/
def dbEmpty : DB := ⟨[]⟩

/-- The table after a concurrent handler created the row for +15551230000. -/
def dbRaceWinner : DB :=
  ⟨[⟨1, pstr "+15551230000", Language.english, true, none, 900, none⟩]⟩

/-- Three broadcast recipients. -/
def exBroadcastUsers : List User :=
  [⟨11, pstr "+15551110001", Language.english, true, none, 0, none⟩,
   ⟨12, pstr "+15551110002", Language.english, true, none, 0, none⟩,
   ⟨13, pstr "+15551110003", Language.english, true, none, 0, none⟩]

/-- A send environment in which exactly the recipient with id 12 fails (its
task raises) and everyone else succeeds. -/
def exSendOneFails : User → PyStr → SendOutcome :=
  fun u _ => if u.id = 12 then SendOutcome.raised (PyErr.twilioErr (pstr "boom"))
    else SendOutcome.value true

/-- A facts dict with one English fact. -/
def exFactsEn : List (Language × PyStr) := [(Language.english, pstr "daily fact")]

/-- A summary of six exclamation-terminated sentences and no periods. -/
def exSummarySixBang : PyStr :=
  pstr "We won! We won! We won! We won! We won! We won again today!"

/-- An already-persisted English artifact for day 100. -/
def exFactRow : DailyFact :=
  ⟨100, Language.english, pstr "Example", pstr "https://en.wikipedia.org/wiki/Example",
    pstr "An example summary of the example article."⟩

/-- A daily_facts table holding only `exFactRow`. -/
def exFactDb : FactDB := ⟨[exFactRow]⟩

/-- A content source that always returns an article. -/
def exWiki : Language → Option Article :=
  fun _ => some ⟨pstr "Title", pstr "https://example.org"⟩

/-- A summarizer that always returns a summary. -/
def exAi : Language → Article → Option PyStr :=
  fun _ _ => some (pstr "Generated summary.")

/-! ## Character and string lemmas -/

theorem uint32_le_iff_toNat_le (a b : UInt32) : a ≤ b ↔ a.toNat ≤ b.toNat := by
  rw [UInt32.le_def, BitVec.le_def]
  exact Iff.rfl

theorem char_ofNat_toNat_of_valid (n : Nat) (hv : n.isValidChar) : (Char.ofNat n).toNat = n := by
  simp [Char.ofNat, hv, Char.ofNatAux, Char.toNat, UInt32.toNat, BitVec.toNat_ofNatLt]

theorem isDigit_iff_toNat (c : Char) :
    c.isDigit = (decide (48 ≤ c.toNat) && decide (c.toNat ≤ 57)) := by
  rw [Char.isDigit]
  have e48 : (48 : UInt32).toNat = 48 := by decide
  have e57 : (57 : UInt32).toNat = 57 := by decide
  have h1 : (c.val ≥ 48) ↔ (48 ≤ c.toNat) := by
    rw [ge_iff_le, uint32_le_iff_toNat_le, e48]
    exact Iff.rfl
  have h2 : (c.val ≤ 57) ↔ (c.toNat ≤ 57) := by
    rw [uint32_le_iff_toNat_le, e57]
    exact Iff.rfl
  rw [decide_eq_decide.mpr h1, decide_eq_decide.mpr h2]

theorem toLower_toNat_of_upper (c : Char) (h : 65 ≤ c.toNat ∧ c.toNat ≤ 90) :
    (Char.toLower c).toNat = c.toNat + 32 := by
  have hv : (c.toNat + 32).isValidChar := Or.inl (by omega)
  unfold Char.toLower
  rw [if_pos ⟨h.1, h.2⟩]
  exact char_ofNat_toNat_of_valid _ hv

theorem toLower_eq_self_of_not_upper (c : Char) (h : ¬(65 ≤ c.toNat ∧ c.toNat ≤ 90)) :
    Char.toLower c = c := by
  unfold Char.toLower
  rw [if_neg]
  intro hc
  exact h ⟨hc.1, hc.2⟩

theorem isDigit_toLower (c : Char) : (Char.toLower c).isDigit = c.isDigit := by
  by_cases h : 65 ≤ c.toNat ∧ c.toNat ≤ 90
  · rw [isDigit_iff_toNat, isDigit_iff_toNat, toLower_toNat_of_upper c h]
    rw [decide_eq_false (by omega : ¬(c.toNat + 32 ≤ 57)),
      decide_eq_false (by omega : ¬(c.toNat ≤ 57))]
    simp
  · rw [toLower_eq_self_of_not_upper c h]

theorem pyIsSpace_toLower (c : Char) : pyIsSpace (Char.toLower c) = pyIsSpace c := by
  by_cases h : 65 ≤ c.toNat ∧ c.toNat ≤ 90
  · unfold pyIsSpace
    rw [toLower_toNat_of_upper c h]
    rw [decide_eq_false (by omega), decide_eq_false (by omega)]
  · rw [toLower_eq_self_of_not_upper c h]

theorem dropWhile_space_map_toLower (l : PyStr) :
    (l.map Char.toLower).dropWhile pyIsSpace = (l.dropWhile pyIsSpace).map Char.toLower := by
  rw [List.dropWhile_map]
  have he : (pyIsSpace ∘ Char.toLower) = pyIsSpace := funext pyIsSpace_toLower
  rw [he]

theorem pyStrip_pyLower (s : PyStr) : pyStrip (pyLower s) = pyLower (pyStrip s) := by
  unfold pyStrip stripWith pyLower
  rw [dropWhile_space_map_toLower, ← List.map_reverse, dropWhile_space_map_toLower,
    ← List.map_reverse]

theorem isEmpty_map (f : α → β) (l : List α) : (l.map f).isEmpty = l.isEmpty := by
  cases l <;> rfl

theorem pyIsDigit_pyLower (s : PyStr) : pyIsDigit (pyLower s) = pyIsDigit s := by
  unfold pyIsDigit pyLower
  rw [isEmpty_map, List.all_map]
  have he : (Char.isDigit ∘ Char.toLower) = Char.isDigit := funext isDigit_toLower
  rw [he]

theorem dropWhile_eq_self_of_head (p : α → Bool) (l : List α)
    (h : ∀ x, l.head? = some x → p x = false) : l.dropWhile p = l := by
  cases l with
  | nil => rfl
  | cons a t =>
    rw [List.dropWhile_cons_of_neg]
    simp [h a rfl]

theorem dropWhile_dropWhile (p : α → Bool) (l : List α) :
    (l.dropWhile p).dropWhile p = l.dropWhile p := by
  apply dropWhile_eq_self_of_head
  intro x hx
  have hh := List.head?_dropWhile_not p l
  rw [hx] at hh
  exact hh

theorem getLast?_dropWhile_of_ne_nil (p : α → Bool) (l : List α) (h : l.dropWhile p ≠ []) :
    (l.dropWhile p).getLast? = l.getLast? := by
  conv_rhs => rw [← List.takeWhile_append_dropWhile (p := p) (l := l)]
  rw [List.getLast?_append]
  cases hq : (l.dropWhile p).getLast? with
  | none => exact absurd (List.getLast?_eq_none_iff.mp hq) h
  | some a => rfl

theorem head?_stripWith (p : α → Bool) (l : List α) (x : α)
    (h : (stripWith p l).head? = some x) : p x = false := by
  unfold stripWith at h
  rw [List.head?_reverse] at h
  have hne : (l.dropWhile p).reverse.dropWhile p ≠ [] := by
    intro hnil
    rw [hnil] at h
    simp at h
  rw [getLast?_dropWhile_of_ne_nil p _ hne] at h
  rw [List.getLast?_reverse] at h
  have hh := List.head?_dropWhile_not p l
  rw [h] at hh
  exact hh

theorem stripWith_idem (p : α → Bool) (l : List α) :
    stripWith p (stripWith p l) = stripWith p l := by
  have h1 : (stripWith p l).dropWhile p = stripWith p l :=
    dropWhile_eq_self_of_head p _ (head?_stripWith p l)
  have h2 : stripWith p (stripWith p l)
      = (((stripWith p l).dropWhile p).reverse.dropWhile p).reverse := rfl
  rw [h2, h1]
  have h3 : (stripWith p l).reverse = (l.dropWhile p).reverse.dropWhile p := by
    have h4 : stripWith p l = ((l.dropWhile p).reverse.dropWhile p).reverse := rfl
    rw [h4, List.reverse_reverse]
  rw [h3, dropWhile_dropWhile]
  rfl

theorem pyStrip_idem (s : PyStr) : pyStrip (pyStrip s) = pyStrip s :=
  stripWith_idem pyIsSpace s

/-! ## C4: session-window eligibility -/

/-- C4: session-window eligibility is exactly `now - last_inbound_at < 24h`:
true when the last inbound is strictly less than 24 hours old, false at
24 hours or more, and false when no inbound was ever recorded. -/
theorem c4_session_window (u : User) (now t : Int) :
    (u.lastMessageAt = some t → now - t < secondsPerDay → u.isInSessionWindow now = true) ∧
    (u.lastMessageAt = some t → secondsPerDay ≤ now - t → u.isInSessionWindow now = false) ∧
    (u.lastMessageAt = none → u.isInSessionWindow now = false) := by
  refine ⟨fun h1 h2 => ?_, fun h1 h2 => ?_, fun h1 => ?_⟩
  · simp [User.isInSessionWindow, h1, h2]
  · simp [User.isInSessionWindow, h1]
    omega
  · simp [User.isInSessionWindow, h1]

/-- Witness for C4 at `last_inbound_at = 0`: eligible at `now = 86399`
(23h59m59s later), not at `now = 86400` (24h), and never when null. -/
theorem c4_session_window_witness :
    exUserAtZero.isInSessionWindow 86399 = true ∧
    exUserAtZero.isInSessionWindow 86400 = false ∧
    exUserNoInbound.isInSessionWindow 86399 = false :=
  ⟨(c4_session_window exUserAtZero 86399 0).1 rfl (by decide),
   (c4_session_window exUserAtZero 86400 0).2.1 rfl (by decide),
   (c4_session_window exUserNoInbound 86399 0).2.2 rfl⟩

/-! ## C1: outbound sends outside the session window -/

/-- C1 counterexample: a recipient outside the session window, a non-sandbox
channel, and configured templates — yet `send_message` issues a single
free-form body send and returns its sid: it neither uses the template mode nor
fails with a "no eligible delivery path" error. -/
theorem c1_counterexample :
    exCfgProd.isSandbox = false ∧ exCfgProd.hasTemplates = true ∧
    exUserNoInbound.isInSessionWindow 1000 = false ∧
    sendMessage exCfgProd twilioOk (pstr "+15550000001") (pstr "hello") MessageType.welcome
      (some exUserNoInbound) 1000 =
      ⟨some (pstr "SM123"),
        [⟨pstr "whatsapp:+15550000001", pstr "hello", DeliveryMode.freeform⟩], true⟩ := by
  refine ⟨by decide, by decide, by decide, by decide⟩

/-- C1 amended: for a recipient outside the session window on a non-sandbox
channel, `send_message` merely computes and logs `should_use_template = true`
and then always sends the content as one free-form body message, returning that
send sid (or `None` if the provider call fails); no template mode is used and
no "no eligible delivery path" failure exists. -/
theorem c1_always_freeform (cfg : TwilioSettings) (twilio : SendAttempt → Except PyErr PyStr)
    (phone content : PyStr) (mt : MessageType) (u : User) (now : Int)
    (hwin : u.isInSessionWindow now = false) (hsand : cfg.isSandbox = false) :
    sendMessage cfg twilio phone content mt (some u) now =
      ⟨(twilio ⟨formatToNumber phone, content, DeliveryMode.freeform⟩).toOption,
        [⟨formatToNumber phone, content, DeliveryMode.freeform⟩], true⟩ := by
  unfold sendMessage sendMessageRaw shouldUseTemplateFlag
  cases htw : twilio ⟨formatToNumber phone, content, DeliveryMode.freeform⟩ <;>
    simp [htw, hwin, hsand, Except.toOption]

/-- Witness for C1 amended at a concrete out-of-window recipient and succeeding
provider. -/
theorem c1_always_freeform_witness :
    sendMessage exCfgProd twilioOk (pstr "+15550000001") (pstr "hi") MessageType.welcome
      (some exUserNoInbound) 1000 =
      ⟨some (pstr "SM123"),
        [⟨pstr "whatsapp:+15550000001", pstr "hi", DeliveryMode.freeform⟩], true⟩ := by
  rw [c1_always_freeform exCfgProd twilioOk (pstr "+15550000001") (pstr "hi")
    MessageType.welcome exUserNoInbound 1000 (by decide) (by decide)]
  decide

/-! ## C10: send operations are total with respect to exceptions -/

/-- C10: `send_message` returns the raw provider outcome with every exception
mapped to `None` (it never propagates a raise), and `send_daily_fact` returns
the boolean "a message id came back" — so callers of the send helpers observe
only an `Option` or a `Bool`, never an exception. -/
theorem c10_sends_total (cfg : TwilioSettings) (twilio : SendAttempt → Except PyErr PyStr)
    (phone content : PyStr) (mt : MessageType) (user : Option User) (now : Int)
    (u : User) (fact : PyStr) :
    (sendMessage cfg twilio phone content mt user now).returned
      = (sendMessageRaw cfg twilio phone content user now).1.toOption ∧
    (sendMessage cfg twilio phone content mt user now).attempts
      = (sendMessageRaw cfg twilio phone content user now).2.1 ∧
    (sendDailyFact cfg twilio u fact now).1
      = (sendMessage cfg twilio u.phone (dailyFactBody u.language fact)
          MessageType.dailyFact none now).returned.isSome := by
  refine ⟨?_, ?_, ?_⟩
  · unfold sendMessage
    cases htw : sendMessageRaw cfg twilio phone content user now with
    | mk raw rest =>
      cases raw <;> simp [Except.toOption]
  · unfold sendMessage
    cases htw : sendMessageRaw cfg twilio phone content user now with
    | mk raw rest =>
      cases raw <;> simp
  · rfl

/-! ## C2: last inbound timestamp -/

/-- C2: processing an inbound event from an existing recipient leaves the
stored `last_message_at` unchanged — the handler never calls
`update_last_message`, for digit bodies and free-form bodies alike (here: the
row still carries the old timestamp 500 although the event was processed at
time 1000). -/
theorem c2_last_inbound_not_recorded :
    ((processMessage dbC2 (pstr "+15551234567") (pstr "hello") 1000).db.lookup
        (pstr "+15551234567")).map User.lastMessageAt = some (some 500) ∧
    ((processMessage dbC2 (pstr "+15551234567") (pstr "2") 1000).db.lookup
        (pstr "+15551234567")).map User.lastMessageAt = some (some 500) := by
  refine ⟨by decide, by decide⟩

/-! ## C3: the "2" menu command -/

/-- C3 counterexample: a subscribed recipient sends "2" — the engine replies
with the subscription menu showing the current (still subscribed) state and
writes nothing; it does not toggle the flag and does not send a post-toggle
confirmation. -/
theorem c3_counterexample :
    (dbC2.lookup (pstr "+15551234567")).map User.subscribed = some true ∧
    processMessage dbC2 (pstr "+15551234567") (pstr "2") 1000 =
      ⟨dbC2, [Reply.subscriptionMenu Language.english true]⟩ := by
  refine ⟨by decide, by decide⟩

/-- C3 amended: for every existing recipient, an inbound body "2" sends the
subscription-management menu reflecting the current `subscribed` flag and
leaves the users table completely unchanged; the toggle lives only in the
sub-menu handler, which "2" does not reach. -/
theorem c3_two_shows_subscription_menu (db : DB) (u : User) (phone : PyStr) (now : Int)
    (hu : db.lookup phone = some u) :
    processMessage db phone (pstr "2") now =
      ⟨db, [Reply.subscriptionMenu u.language u.subscribed]⟩ := by
  have hbody : pyStrip (pyLower (pstr "2")) = pstr "2" := by decide
  have hstrip : pyStrip (pstr "2") = pstr "2" := by decide
  have hguard : (!(pstr "2").isEmpty && pyIsDigit (pstr "2")) = true := by decide
  have h21 : (pstr "2" == pstr "1") = false := by decide
  have h22 : (pstr "2" == pstr "2") = true := by decide
  unfold processMessage processMessageRaced
  rw [hbody]
  simp only [hu, hstrip, hguard, if_true]
  unfold handleNumberResponse
  simp only [hu, h21, h22, Bool.false_eq_true, if_false, if_true]

/-- Witness for C3 amended at the concrete subscribed recipient. -/
theorem c3_two_shows_subscription_menu_witness :
    processMessage dbC2 (pstr "+15551234567") (pstr "2") 999 =
      ⟨dbC2, [Reply.subscriptionMenu Language.english true]⟩ :=
  c3_two_shows_subscription_menu dbC2 exUserC2 (pstr "+15551234567") 999 (by decide)

/-! ## C8: first-contact creation race -/

/-- C8 counterexample: the lookup saw no row, a concurrent handler then
committed the row, and the create of this handler hit the uniqueness violation — the
catch-all swallows it, so no reply is sent at all (the claim promised the
sender still gets a reply via a re-fetch). The one row in the table is the
concurrent winner; this handler did not proceed as the existing-recipient
branch. -/
theorem c8_counterexample :
    (dbRaceWinner.lookup (pstr "+15551230000")).isSome = true ∧
    processMessageRaced dbEmpty dbRaceWinner (pstr "+15551230000") (pstr "hello") 1000 =
      ⟨dbRaceWinner, []⟩ := by
  refine ⟨by decide, by decide⟩

/-- C8 amended: when the first-contact lookup misses but a concurrent handler
has already committed a row for the same address, the create raises a
uniqueness violation that the catch-all swallows: no reply is sent, no
re-fetch happens, and the table stays exactly as the concurrent winner left it
(in particular the address still has its single row). -/
theorem c8_race_swallowed (dbAtLookup dbAtCreate : DB) (phone rawBody : PyStr) (now : Int)
    (hmiss : dbAtLookup.lookup phone = none)
    (hhit : (dbAtCreate.lookup phone).isSome = true) :
    processMessageRaced dbAtLookup dbAtCreate phone rawBody now = ⟨dbAtCreate, []⟩ := by
  unfold processMessageRaced
  simp only [hmiss]
  unfold DB.createUser
  simp only [hhit, if_true]

/-- Witness for C8 amended at the concrete race fixtures. -/
theorem c8_race_swallowed_witness :
    processMessageRaced dbEmpty dbRaceWinner (pstr "+15551230000") (pstr "hi") 1000 =
      ⟨dbRaceWinner, []⟩ :=
  c8_race_swallowed dbEmpty dbRaceWinner (pstr "+15551230000") (pstr "hi") 1000
    (by decide) (by decide)

/-! ## C9: non-digit bodies re-show the main menu -/

/-- C9: for every existing recipient and every inbound body whose trimmed text
is not a non-empty decimal-digit string (the empty string and free-form text
included), the engine sends exactly the main-menu reply and leaves the users
table — in particular the `subscribed` flag and every other stored field —
unchanged. -/
theorem c9_non_digit_resends_menu (db : DB) (u : User) (phone rawBody : PyStr) (now : Int)
    (hu : db.lookup phone = some u)
    (hbody : pyIsDigit (pyStrip rawBody) = false) :
    processMessage db phone rawBody now = ⟨db, [Reply.mainMenu u.language]⟩ := by
  have key : pyIsDigit (pyStrip (pyStrip (pyLower rawBody))) = false := by
    rw [pyStrip_pyLower, pyStrip_pyLower, pyIsDigit_pyLower, pyStrip_idem]
    exact hbody
  unfold processMessage processMessageRaced
  simp only [hu, key, Bool.and_false, Bool.false_eq_true, if_false]

/-- Witness for C9 at a concrete free-form body. -/
theorem c9_non_digit_resends_menu_witness :
    processMessage dbC2 (pstr "+15551234567") (pstr " abc ") 1000 =
      ⟨dbC2, [Reply.mainMenu Language.english]⟩ :=
  c9_non_digit_resends_menu dbC2 exUserC2 (pstr "+15551234567") (pstr " abc ") 1000
    (by decide) (by decide)

/-! ## C5: broadcast partial-failure isolation -/

theorem flatten_batchesOf (k : Nat) (l : List α) : (batchesOf k l).flatten = l := by
  generalize hn : l.length = n
  induction n using Nat.strong_induction_on generalizing l with
  | _ n ih =>
    cases l with
    | nil => simp [batchesOf]
    | cons a rest =>
      have hstep : batchesOf k (a :: rest)
          = (a :: rest.take (k - 1)) :: batchesOf k (rest.drop (k - 1)) := by
        rw [batchesOf]
      have hlen : (rest.drop (k - 1)).length < n := by
        rw [List.length_drop]
        simp only [List.length_cons] at hn
        omega
      rw [hstep, List.flatten_cons, ih _ hlen _ rfl]
      simp [List.take_append_drop]

theorem countP_add_countP_not (p : α → Bool) (l : List α) :
    l.countP p + l.countP (fun a => !p a) = l.length := by
  induction l with
  | nil => rfl
  | cons a t ih =>
    by_cases h : p a = true
    · simp [List.countP_cons, h]
      omega
    · have h2 : p a = false := by
        revert h
        cases p a <;> simp
      simp [List.countP_cons, h2]
      omega

theorem broadcastForLanguage_eq (send : User → SendOutcome) (users : List User) :
    broadcastForLanguage send users
      = (users.countP (fun u => (send u).isTrueBool), users) := by
  unfold broadcastForLanguage
  have hgen : ∀ (bs : List (List User)) (n : Nat) (acc : List User),
      bs.foldl
        (fun acc batch => (acc.1 + (batch.map send).countP SendOutcome.isTrueBool,
          acc.2 ++ batch)) (n, acc)
        = (n + bs.flatten.countP (fun u => (send u).isTrueBool), acc ++ bs.flatten) := by
    intro bs
    induction bs with
    | nil =>
      intro n acc
      simp
    | cons b bs ih =>
      intro n acc
      rw [List.foldl_cons, ih]
      simp [List.countP_append, List.countP_map, Nat.add_assoc, Function.comp_def]
  show (batchesOf 10 users).foldl
      (fun acc batch => (acc.1 + (batch.map send).countP SendOutcome.isTrueBool,
        acc.2 ++ batch)) (0, [])
      = (users.countP (fun u => (send u).isTrueBool), users)
  rw [hgen, flatten_batchesOf]
  simp

/-- C5: when exactly one recipient in the list fails (a raised exception or a
`False` return) and the rest succeed, the broadcaster still attempts every
recipient of every batch, in order, and reports `length - 1` successful sends;
the loop has no raise path — captured exceptions are only excluded from the
count. -/
theorem c5_broadcast_partial_failure (send : User → PyStr → SendOutcome) (lang : Language)
    (users : List User) (fact : PyStr) (facts : List (Language × PyStr))
    (hf : lookupAssoc facts lang = some fact)
    (hone : users.countP (fun u => !(send u fact).isTrueBool) = 1) :
    broadcastDailyFacts send [(lang, users)] facts =
      ([(lang, users.length - 1)], users) := by
  have hsplit := countP_add_countP_not (fun u => (send u fact).isTrueBool) users
  have hcount : users.countP (fun u => (send u fact).isTrueBool) = users.length - 1 := by
    rw [hone] at hsplit
    omega
  unfold broadcastDailyFacts
  rw [List.foldl_cons]
  simp only [hf]
  rw [broadcastForLanguage_eq]
  simp [hcount]

/-- Witness for C5: three recipients of which exactly the second fails — both
batchmates after the failure are still attempted and the count is 2. -/
theorem c5_broadcast_partial_failure_witness :
    broadcastDailyFacts exSendOneFails [(Language.english, exBroadcastUsers)] exFactsEn =
      ([(Language.english, 2)], exBroadcastUsers) := by
  have h := c5_broadcast_partial_failure exSendOneFails Language.english exBroadcastUsers
    (pstr "daily fact") exFactsEn (by decide) (by decide)
  rw [h]
  decide

/-! ## C7: summary validation -/

/-- C7 counterexample: a 59-character English summary made of six sentences
terminated by exclamation marks and containing no period. Split on terminal
punctuation its sentence count is 6, outside the claimed 1..5 bound, yet the
validation accepts it — the source splits on periods only and counts one
"sentence". -/
theorem c7_counterexample :
    validateSummary exSummarySixBang (pstr "en") = true ∧
    specSentenceCount exSummarySixBang = 6 ∧
    sentenceCountOnDot exSummarySixBang = 1 := by
  refine ⟨by decide, by decide, by decide⟩

/-- C7 amended: the validation accepts a summary if and only if it is
non-empty (and not whitespace-only), its length lies within 50..400
characters, its period-split sentence count lies within 1..5 (periods only —
not all terminal punctuation), for the Hebrew target language at least 30
percent of its characters are in the Hebrew block, and no denylist refusal
phrase occurs in it (both sides lowercased). -/
theorem c7_validate_characterization (s lang : PyStr) :
    validateSummary s lang = true ↔
      (s.isEmpty = false ∧ (pyStrip s).isEmpty = false ∧
       50 ≤ s.length ∧ s.length ≤ 400 ∧
       1 ≤ sentenceCountOnDot s ∧ sentenceCountOnDot s ≤ 5 ∧
       (lang = pstr "he" → 3 * s.length ≤ 10 * hebrewCharCount s) ∧
       (∀ pat ∈ avoidPhrases, containsSub (pyLower pat) (pyLower s) = false)) := by
  unfold validateSummary
  constructor
  · intro hacc
    split_ifs at hacc with h1 h2 h3 h4 h5
    all_goals try (simp only [Bool.false_eq_true] at hacc)
    · simp only [Bool.or_eq_true, not_or, Bool.not_eq_true] at h1 h2 h3
      simp only [Bool.and_eq_true, not_and, beq_iff_eq, decide_eq_true_eq] at h4
      simp only [List.any_eq_true, not_exists, not_and, Bool.not_eq_true] at h5
      refine ⟨h1.1, h1.2, ?_, ?_, ?_, ?_, ?_, ?_⟩
      · have := h2.1
        simp only [decide_eq_false_iff_not, not_lt] at this
        exact this
      · have := h2.2
        simp only [decide_eq_false_iff_not, not_lt] at this
        exact this
      · have := h3.1
        simp only [decide_eq_false_iff_not, not_lt] at this
        omega
      · have := h3.2
        simp only [decide_eq_false_iff_not, not_lt] at this
        exact this
      · intro hlang
        have := h4 hlang
        omega
      · intro pat hpat
        exact h5 pat hpat
  · intro hr
    obtain ⟨ha, hb, hc, hd, he, hf, hg, hh⟩ := hr
    split_ifs with h1 h2 h3 h4 h5
    · simp only [Bool.or_eq_true] at h1
      rcases h1 with h1 | h1
      · rw [ha] at h1
        exact absurd h1 (by decide)
      · rw [hb] at h1
        exact absurd h1 (by decide)
    · simp only [Bool.or_eq_true, decide_eq_true_eq] at h2
      omega
    · simp only [Bool.or_eq_true, decide_eq_true_eq] at h3
      omega
    · simp only [Bool.and_eq_true, beq_iff_eq, decide_eq_true_eq] at h4
      have := hg h4.1
      omega
    · simp only [List.any_eq_true] at h5
      obtain ⟨pat, hpat, hcon⟩ := h5
      rw [hh pat hpat] at hcon
      exact absurd hcon (by decide)
    · rfl

/-! ## C6: idempotent daily production -/

theorem dailyJobStep_hit (wiki : Language → Option Article)
    (ai : Language → Article → Option PyStr) (today : Nat)
    (existing : List (Language × PyStr)) (st : JobTrace) (lang : Language) (s : PyStr)
    (hhit : lookupAssoc existing lang = some s) :
    dailyJobStep wiki ai today existing st lang =
      { st with factsToSend := st.factsToSend ++ [(lang, s)] } := by
  unfold dailyJobStep
  rw [hhit]

theorem dailyJobStep_other (wiki : Language → Option Article)
    (ai : Language → Article → Option PyStr) (today : Nat)
    (existing : List (Language × PyStr)) (st : JobTrace) (l lang : Language)
    (hne : lang ≠ l) :
    ((lang ∈ (dailyJobStep wiki ai today existing st l).wikiCalls) ↔ lang ∈ st.wikiCalls) ∧
    ((lang ∈ (dailyJobStep wiki ai today existing st l).aiCalls) ↔ lang ∈ st.aiCalls) ∧
    (∀ x, (lang, x) ∈ st.factsToSend →
      (lang, x) ∈ (dailyJobStep wiki ai today existing st l).factsToSend) ∧
    ((dailyJobStep wiki ai today existing st l).db.facts.filter
        (fun g => decide (g.date = today) && decide (g.language = lang)) =
      st.db.facts.filter (fun g => decide (g.date = today) && decide (g.language = lang))) := by
  have hne2 : l ≠ lang := Ne.symm hne
  cases hLA : lookupAssoc existing l with
  | some s =>
    rw [dailyJobStep, hLA]
    dsimp only
    exact ⟨Iff.rfl, Iff.rfl, fun x hx => List.mem_append_left _ hx, rfl⟩
  | none =>
    cases hw : wiki l with
    | none =>
      rw [dailyJobStep, hLA]
      dsimp only
      rw [generateDailyFactForLanguage]
      dsimp only
      rw [hw]
      dsimp only
      refine ⟨?_, Iff.rfl, fun x hx => hx, rfl⟩
      simp [List.mem_append, hne]
    | some art =>
      cases ha : ai l art with
      | none =>
        rw [dailyJobStep, hLA]
        dsimp only
        rw [generateDailyFactForLanguage]
        dsimp only
        rw [hw]
        dsimp only
        rw [ha]
        dsimp only
        refine ⟨?_, ?_, fun x hx => hx, rfl⟩
        · simp [List.mem_append, hne]
        · simp [List.mem_append, hne]
      | some s =>
        rw [dailyJobStep, hLA]
        dsimp only
        rw [generateDailyFactForLanguage]
        dsimp only
        rw [hw]
        dsimp only
        rw [ha]
        dsimp only
        refine ⟨?_, ?_, fun x hx => List.mem_append_left _ hx, ?_⟩
        · simp [List.mem_append, hne]
        · simp [List.mem_append, hne]
        · unfold FactDB.createDailyFact
          dsimp only
          rw [List.filter_append]
          have hlast : (List.filter
              (fun g => decide (g.date = today) && decide (g.language = lang))
              [(⟨today, l, art.title, art.url, s⟩ : DailyFact)]) = [] := by
            simp [List.filter, hne2]
          rw [hlast, List.append_nil]

/-- C6: the daily production job is idempotent per (day, language): when an
artifact for today and this language is already persisted, a run of the job
makes no content-source and no summarizer call for that language, reuses the
stored summary in `facts_to_send`, and leaves the (today, language) rows of the
daily_facts table unchanged — in particular, still exactly the one row. -/
theorem c6_idempotent_daily_production (wiki : Language → Option Article)
    (ai : Language → Article → Option PyStr) (db : FactDB) (today : Nat)
    (lang : Language) (f : DailyFact)
    (h : db.getDailyFact today lang = some f) :
    lang ∉ (generateAndSendDailyFacts wiki ai db today).wikiCalls ∧
    lang ∉ (generateAndSendDailyFacts wiki ai db today).aiCalls ∧
    (lang, f.summary) ∈ (generateAndSendDailyFacts wiki ai db today).factsToSend ∧
    (generateAndSendDailyFacts wiki ai db today).db.facts.filter
        (fun g => decide (g.date = today) && decide (g.language = lang)) =
      db.facts.filter (fun g => decide (g.date = today) && decide (g.language = lang)) := by
  have hform : generateAndSendDailyFacts wiki ai db today
      = dailyJobStep wiki ai today
          (jobLanguages.filterMap
            (fun l => (db.getDailyFact today l).map (fun g => (l, g.summary))))
          (dailyJobStep wiki ai today
            (jobLanguages.filterMap
              (fun l => (db.getDailyFact today l).map (fun g => (l, g.summary))))
            ⟨db, [], [], []⟩ Language.english) Language.hebrew := rfl
  cases lang with
  | english =>
    have hexist : lookupAssoc
        (jobLanguages.filterMap
          (fun l => (db.getDailyFact today l).map (fun g => (l, g.summary))))
        Language.english = some f.summary := by
      simp [jobLanguages, lookupAssoc, h]
    have hstep1 : dailyJobStep wiki ai today
        (jobLanguages.filterMap
          (fun l => (db.getDailyFact today l).map (fun g => (l, g.summary))))
        ⟨db, [], [], []⟩ Language.english
        = ⟨db, [], [], [(Language.english, f.summary)]⟩ := by
      rw [dailyJobStep_hit _ _ _ _ _ _ _ hexist]
      rfl
    rw [hform, hstep1]
    obtain ⟨hw, ha, hfs, hdb⟩ := dailyJobStep_other wiki ai today
      (jobLanguages.filterMap
        (fun l => (db.getDailyFact today l).map (fun g => (l, g.summary))))
      ⟨db, [], [], [(Language.english, f.summary)]⟩ Language.hebrew Language.english
      (by decide)
    refine ⟨?_, ?_, ?_, ?_⟩
    · rw [hw]
      simp
    · rw [ha]
      simp
    · exact hfs f.summary (by simp)
    · exact hdb
  | hebrew =>
    have hexist : lookupAssoc
        (jobLanguages.filterMap
          (fun l => (db.getDailyFact today l).map (fun g => (l, g.summary))))
        Language.hebrew = some f.summary := by
      cases hE : db.getDailyFact today Language.english with
      | none => simp [jobLanguages, lookupAssoc, h, hE]
      | some e => simp [jobLanguages, lookupAssoc, h, hE]
    obtain ⟨hw, ha, _, hdb⟩ := dailyJobStep_other wiki ai today
      (jobLanguages.filterMap
        (fun l => (db.getDailyFact today l).map (fun g => (l, g.summary))))
      ⟨db, [], [], []⟩ Language.english Language.hebrew (by decide)
    rw [hform, dailyJobStep_hit _ _ _ _ _ _ _ hexist]
    dsimp only
    refine ⟨?_, ?_, ?_, ?_⟩
    · rw [hw]
      simp
    · rw [ha]
      simp
    · simp
    · exact hdb

/-- Witness for C6 at a table already holding the English artifact for day
100: the rerun reuses it. -/
theorem c6_idempotent_daily_production_witness :
    Language.english ∉ (generateAndSendDailyFacts exWiki exAi exFactDb 100).wikiCalls ∧
    Language.english ∉ (generateAndSendDailyFacts exWiki exAi exFactDb 100).aiCalls ∧
    (Language.english, exFactRow.summary) ∈
      (generateAndSendDailyFacts exWiki exAi exFactDb 100).factsToSend ∧
    (generateAndSendDailyFacts exWiki exAi exFactDb 100).db.facts.filter
        (fun g => decide (g.date = 100) && decide (g.language = Language.english)) =
      exFactDb.facts.filter
        (fun g => decide (g.date = 100) && decide (g.language = Language.english)) :=
  c6_idempotent_daily_production exWiki exAi exFactDb 100 Language.english exFactRow
    (by decide)

end WikiBot
